import Mathlib

/-!
A shallow embedding of the `rpc` package (rpc/server.py, rpc/client.py):
the wire values, the request/response envelopes, the server dispatch in
`Server._process_request`, the per-connection handler loop, server `stop`,
and the client side (`Client.call` request building and response handling,
`Client.close`, and the `RPCResult` conversion methods).

Machine-level aspects that are out of scope of the embedding: IEEE floats
(msgpack float values are not modelled in `Value`), raw byte payloads, and
the msgpack byte encoding itself (the codec is lossless and is modelled as
the identity on structured values, so envelopes are passed as decoded
mappings; a decode failure is modelled as an exceptional outcome).
-/

/-- A codec-representable value: the Python values that flow through the
RPC layer (msgpack scalars, ordered sequences and string-keyed mappings).
`vnil` is Python `None`. -/
inductive Value where
  | vnil : Value
  | vbool (b : Bool) : Value
  | vint (n : Int) : Value
  | vstr (s : String) : Value
  | vlist (xs : List Value) : Value
  | vmap (kvs : List (String × Value)) : Value

/-- A single-quote character, kept out of string literals. -/
def squote : String := String.singleton (Char.ofNat 39)

mutual

/-- Python `repr` of a modelled value (string escaping not modelled). -/
def pyRepr : Value → String
  | Value.vnil => "None"
  | Value.vbool b => if b then "True" else "False"
  | Value.vint n => toString n
  | Value.vstr s => squote ++ s ++ squote
  | Value.vlist xs => "[" ++ pyReprList xs ++ "]"
  | Value.vmap kvs => "\x7b" ++ pyReprPairs kvs ++ "\x7d"

/-- Comma-separated reprs of the elements of a list. -/
def pyReprList : List Value → String
  | [] => ""
  | [v] => pyRepr v
  | v :: vs => pyRepr v ++ ", " ++ pyReprList vs

/-- Comma-separated `key: value` reprs of the entries of a mapping. -/
def pyReprPairs : List (String × Value) → String
  | [] => ""
  | [(k, v)] => squote ++ k ++ squote ++ ": " ++ pyRepr v
  | (k, v) :: kvs => squote ++ k ++ squote ++ ": " ++ pyRepr v ++ ", " ++ pyReprPairs kvs

end

/-- Python `str` of a modelled value. -/
def pyStr : Value → String
  | Value.vstr s => s
  | v => pyRepr v

/-- Python type name of a modelled value, as used in builtin error texts. -/
def pyTypeName : Value → String
  | Value.vnil => "NoneType"
  | Value.vbool _ => "bool"
  | Value.vint _ => "int"
  | Value.vstr _ => "str"
  | Value.vlist _ => "list"
  | Value.vmap _ => "dict"

/-- Python truthiness of a modelled value. -/
def truthy : Value → Bool
  | Value.vnil => false
  | Value.vbool b => b
  | Value.vint n => n != 0
  | Value.vstr s => !s.isEmpty
  | Value.vlist xs => !xs.isEmpty
  | Value.vmap kvs => !kvs.isEmpty

/-- A value is a scalar when it is neither an ordered sequence nor a
keyed mapping. -/
def isScalar : Value → Bool
  | Value.vlist _ => false
  | Value.vmap _ => false
  | _ => true

/-- A decoded msgpack mapping with string keys: the shape of request and
response envelopes on the wire (after `msgpack.unpackb(..., raw=False)`). -/
abbrev Env := List (String × Value)

/-- Python `dict.get`: first binding of the key, if any (envelope dicts
have distinct keys). -/
def dictGet (m : Env) (k : String) : Option Value :=
  match m with
  | [] => none
  | (k2, v) :: rest => if k2 = k then some v else dictGet rest k

/-- `"k" in d` on an envelope. -/
def hasKey (m : Env) (k : String) : Bool :=
  (dictGet m k).isSome

/-- A raised Python exception, reduced to its message text `str(e)`. -/
structure PyExc where
  msg : String

/-- `traceback.format_exc()` for the exception being handled: an opaque
diagnostic trace derived from the exception. -/
def format_exc (e : PyExc) : String :=
  "Traceback (most recent call last): " ++ e.msg

/-- How a Python callable is invoked by the server: either with an ordered
positional argument list (`func(*params)`) or with keyword bindings
(`func(**params)`). -/
inductive PyArgs where
  | pos (args : List Value) : PyArgs
  | kw (kwargs : List (String × Value)) : PyArgs

/-- A bound Python callable: invoked with `PyArgs`, it either returns a
value or raises (argument-count mismatches included). -/
def PyFunc := PyArgs → Except PyExc Value

/-- The server's dispatch table `self.functions` (insertion at the front;
`dictGet`-style first-match lookup makes the newest binding win). -/
abbrev Table := List (String × PyFunc)

/-- `self.functions` lookup for a bound name. -/
def lookupFn (t : Table) (n : String) : Option PyFunc :=
  match t with
  | [] => none
  | (k, f) :: rest => if k = n then some f else lookupFn rest n

/-- `Server.bind(name, func)`: registers or overwrites the binding. -/
def Server.bind (t : Table) (n : String) (f : PyFunc) : Table :=
  (n, f) :: t

/-- `method_name not in self.functions` / `self.functions[method_name]`:
the request's `method` slot may be absent (Python `None`) or a non-string
value, in which case it matches no string key. -/
def lookupMethod (t : Table) : Option Value → Option PyFunc
  | some (Value.vstr s) => lookupFn t s
  | _ => none

/-- `str` of the request's `method` slot as interpolated into the
not-found message (`str(None)` is `"None"`). -/
def pyStrOpt : Option Value → String
  | none => "None"
  | some v => pyStr v

/-- The not-found error text built by `_process_request`. -/
def methodNotFoundMsg (mn : Option Value) : String :=
  "Method " ++ squote ++ pyStrOpt mn ++ squote ++ " not found"

/-- Server.py lines 111-117: call the resolved function with the request
parameters — positionally in order for a sequence, as keyword bindings for
a mapping, and as one positional argument for a scalar. -/
def invoke (f : PyFunc) (params : Value) : Except PyExc Value :=
  match params with
  | Value.vlist l => f (PyArgs.pos l)
  | Value.vmap m => f (PyArgs.kw m)
  | p => f (PyArgs.pos [p])

/-- `Server._process_request`: resolve the method, invoke it, and wrap the
outcome into a response envelope; any exception raised by the callable is
caught and converted into a failure envelope with a traceback. -/
def process_request (functions : Table) (request : Env) : Env :=
  let method_name : Option Value := dictGet request "method"
  let params : Value := (dictGet request "params").getD (Value.vlist [])
  match lookupMethod functions method_name with
  | none => [("error", Value.vstr (methodNotFoundMsg method_name))]
  | some func =>
    match invoke func params with
    | Except.ok v => [("result", v)]
    | Except.error e =>
        [("error", Value.vstr e.msg), ("traceback", Value.vstr (format_exc e))]

/-- One non-empty read in `Server._handle_client`: `d` is the outcome of
`msgpack.unpackb` on the received bytes. The inner `try` turns a decode
failure into an error envelope; otherwise the request is processed. -/
def handleOne (functions : Table) (d : Except PyExc Env) : Env :=
  match d with
  | Except.ok request => process_request functions request
  | Except.error e =>
      [("error", Value.vstr e.msg), ("traceback", Value.vstr (format_exc e))]

/-- What one blocking `recv` on the connection yields: zero bytes (peer
closed) or one message whose decode succeeds or fails. -/
inductive ReadEvent where
  | closed : ReadEvent
  | msg (d : Except PyExc Env) : ReadEvent

/-- Why the handler loop stopped in a finite run of the model. -/
inductive ExitReason where
  /-- the `while self.running` condition was false at the check -/
  | stopped : ExitReason
  /-- `recv` returned zero bytes, `break` -/
  | peerClosed : ExitReason
  /-- the scripted run ended with the handler still serving (blocked) -/
  | pending : ExitReason
deriving DecidableEq

/-- The read-dispatch-write loop of `Server._handle_client`. `flags` gives
the value of the shared `self.running` flag at each successive
loop-condition check (an interleaving with concurrent `stop()` calls);
`events` scripts the successive reads. Returns the response envelopes sent,
in order, and why the loop ended. -/
def handlerLoop (functions : Table) : List Bool → List ReadEvent → List Env × ExitReason
  | [], _ => ([], ExitReason.pending)
  | false :: _, _ => ([], ExitReason.stopped)
  | true :: _, [] => ([], ExitReason.pending)
  | true :: _, ReadEvent.closed :: _ => ([], ExitReason.peerClosed)
  | true :: flags, ReadEvent.msg d :: events =>
      let resp := handleOne functions d
      let rest := handlerLoop functions flags events
      (resp :: rest.1, rest.2)

/-- The server lifecycle state touched by `stop()`: the `running` flag,
the listening socket, and the client sockets currently owned by open
connection handlers (identified by handle). -/
structure ServerState where
  running : Bool
  serverSocketOpen : Bool
  openHandlerSockets : List Nat

/-- `Server.stop`: clears `running` and closes the listening socket; it
does not touch any handler-owned client socket. -/
def Server.stop (s : ServerState) : ServerState :=
  { running := false, serverSocketOpen := false,
    openHandlerSockets := s.openHandlerSockets }

/-- The envelope a response to one invocation outcome takes: the success
and failure shapes of §3 of the design (used to state theorems; the server
code above builds the same dictionaries inline). -/
def resultEnvelope : Except PyExc Value → Env
  | Except.ok v => [("result", v)]
  | Except.error e =>
      [("error", Value.vstr e.msg), ("traceback", Value.vstr (format_exc e))]

/-- A request envelope with an explicit params value. -/
def requestFor (name : String) (p : Value) : Env :=
  [("method", Value.vstr name), ("params", p)]

/-- Client.py lines 107-114: the params value sent for
`call(method, *args, **kwargs)` — Python truthiness on `args`/`kwargs`
decides the branch. -/
def build_params (args : List Value) (kwargs : List (String × Value)) : Value :=
  if !args.isEmpty && !kwargs.isEmpty then
    Value.vlist (args ++ [Value.vmap kwargs])
  else if !kwargs.isEmpty then
    Value.vmap kwargs
  else
    Value.vlist args

/-- The request envelope built by `Client.call`. -/
def build_request (method_name : String) (args : List Value)
    (kwargs : List (String × Value)) : Env :=
  [("method", Value.vstr method_name), ("params", build_params args kwargs)]

/-- The message of the exception `Client.call` raises on a failure
envelope. The `RuntimeError` raised at the `if "error" in response` check
sits inside the surrounding `try`, so it is re-wrapped by the generic
`except Exception` clause into `RuntimeError(f"Call failed: ...")`; when
the `error` value is not a string and a traceback is present, the `+=`
concatenation itself raises a `TypeError` that is wrapped instead. -/
def remote_error_message (ev : Value) (tb : Option Value) : String :=
  match tb with
  | none => "Call failed: Remote call failed: " ++ pyStr ev
  | some t =>
    match ev with
    | Value.vstr s =>
        "Call failed: Remote call failed: " ++ s ++
          "\nServer traceback:\n" ++ pyStr t
    | _ => "Call failed: can only concatenate str to str"

/-- Client.py lines 130-138: on a decoded response, raise if the `error`
key is present, otherwise wrap `response.get("result")` (Python `None`
when absent) in an `RPCResult`. The wrapper structure is defined just
below; here only its stored value matters. -/
structure RPCResult where
  value : Value

/-- `RPCResult.get`: the raw stored value. -/
def RPCResult.get (r : RPCResult) : Value := r.value

/-- Response handling inside `Client.call`. -/
def handle_response (response : Env) : Except PyExc RPCResult :=
  match dictGet response "error" with
  | some ev => Except.error ⟨remote_error_message ev (dictGet response "traceback")⟩
  | none => Except.ok ⟨(dictGet response "result").getD Value.vnil⟩

/-- The client connection state `Client.close` touches: `self.socket` is
either an open socket (identified by handle) or `None`. -/
structure ClientState where
  socket : Option Nat

/-- `Client.close`: closes the socket and clears it when one is open,
otherwise does nothing. The boolean records whether `socket.close()` was
actually invoked. -/
def Client.close (c : ClientState) : ClientState × Bool :=
  if c.socket.isSome then ({ socket := none }, true) else (c, false)

/-- Surrounding whitespace stripped from a character list, as Python
number constructors strip it from a string argument. -/
def trimChars (cs : List Char) : List Char :=
  ((cs.dropWhile Char.isWhitespace).reverse.dropWhile Char.isWhitespace).reverse

/-- Accumulating decimal value of a digit run; fails on a non-digit. -/
def digitsVal : List Char → Nat → Option Nat
  | [], acc => some acc
  | c :: cs, acc => if c.isDigit then digitsVal cs (acc * 10 + (c.toNat - 48)) else none

/-- Value of a non-empty decimal digit run. -/
def digitsToNat (cs : List Char) : Option Nat :=
  match cs with
  | [] => none
  | _ => digitsVal cs 0

/-- Python `int(s)` on a string literal: optional surrounding whitespace,
optional sign, decimal digits (digit separators and non-decimal bases are
outside the modelled value set). -/
def parseIntLiteral (s : String) : Option Int :=
  match trimChars s.toList with
  | [] => none
  | c :: cs =>
    if c = '-' then Option.map (fun n => -(n : Int)) (digitsToNat cs)
    else if c = '+' then Option.map (fun n => (n : Int)) (digitsToNat cs)
    else Option.map (fun n => (n : Int)) (digitsToNat (c :: cs))

/-- Split a character list at its first dot, when one is present. -/
def splitOnDot : List Char → List Char × Option (List Char)
  | [] => ([], none)
  | c :: rest =>
    if c = '.' then ([], some rest)
    else
      let p := splitOnDot rest
      (c :: p.1, p.2)

/-- Python `float(s)` on a plain decimal literal, valued in `ℚ` (every
such literal denotes a rational; exponents, `inf` and `nan` are outside
the modelled value set). -/
def parseFloatLiteral (s : String) : Option Rat :=
  let t := trimChars s.toList
  let sgn : Rat :=
    match t with
    | c :: _ => if c = '-' then -1 else 1
    | [] => 1
  let u : List Char :=
    match t with
    | c :: cs => if c = '-' || c = '+' then cs else t
    | [] => []
  match splitOnDot u with
  | (a, none) => Option.map (fun n => sgn * (n : Rat)) (digitsToNat a)
  | (a, some b) =>
    if b.contains '.' then none
    else if a.isEmpty && b.isEmpty then none
    else
      match (if a.isEmpty then some 0 else digitsToNat a),
            (if b.isEmpty then some 0 else digitsToNat b) with
      | some na, some nb =>
          some (sgn * ((na : Rat) + (nb : Rat) / ((10 : Rat) ^ b.length)))
      | _, _ => none

/-- Python `int(value)`: exact on ints and bools, parses string literals,
raises on `None`, sequences and mappings. -/
def int_of : Value → Except PyExc Int
  | Value.vint n => Except.ok n
  | Value.vbool b => Except.ok (if b then 1 else 0)
  | Value.vstr s =>
    match parseIntLiteral s with
    | some n => Except.ok n
    | none => Except.error ⟨"invalid literal for int() with base 10: " ++ pyRepr (Value.vstr s)⟩
  | v => Except.error ⟨"int() argument must be a string or a number, not " ++ pyTypeName v⟩

/-- Python `float(value)`, valued in `ℚ`. -/
def float_of : Value → Except PyExc Rat
  | Value.vint n => Except.ok (n : Rat)
  | Value.vbool b => Except.ok (if b then 1 else 0)
  | Value.vstr s =>
    match parseFloatLiteral s with
    | some q => Except.ok q
    | none => Except.error ⟨"could not convert string to float: " ++ pyRepr (Value.vstr s)⟩
  | v => Except.error ⟨"float() argument must be a string or a number, not " ++ pyTypeName v⟩

/-- Python `list(value)`: identity on sequences, the characters of a
string, the keys of a mapping; raises on non-iterables. -/
def list_of : Value → Except PyExc (List Value)
  | Value.vlist xs => Except.ok xs
  | Value.vstr s => Except.ok (s.toList.map fun c => Value.vstr (String.singleton c))
  | Value.vmap kvs => Except.ok (kvs.map fun p => Value.vstr p.1)
  | v => Except.error ⟨pyTypeName v ++ " object is not iterable"⟩

/-- `dict(seq)` over the elements of a sequence: each element must be an
iterable of length two (a two-element sequence, or a two-character
string) whose first component is a string key in the modelled value set. -/
def dictPairs : List Value → Except PyExc (List (String × Value))
  | [] => Except.ok []
  | Value.vlist [Value.vstr k, v] :: rest =>
      Except.map (fun t => (k, v) :: t) (dictPairs rest)
  | Value.vstr s :: rest =>
    (match s.toList with
     | [c1, c2] =>
         Except.map (fun t => (String.singleton c1, Value.vstr (String.singleton c2)) :: t)
           (dictPairs rest)
     | _ => Except.error ⟨"dictionary update sequence element has bad length"⟩)
  | v :: _ => Except.error ⟨"cannot convert dictionary update sequence element " ++ pyRepr v⟩

/-- Python `dict(value)`: identity on mappings, pairwise conversion of a
sequence, raises on scalars (an empty string gives the empty dict, a
non-empty string raises because its elements are single characters). -/
def dict_of : Value → Except PyExc (List (String × Value))
  | Value.vmap kvs => Except.ok kvs
  | Value.vlist xs => dictPairs xs
  | Value.vstr s => if s.isEmpty then Except.ok [] else
      Except.error ⟨"dictionary update sequence element has bad length"⟩
  | v => Except.error ⟨pyTypeName v ++ " object is not iterable"⟩

/-- `RPCResult.as_int`. -/
def RPCResult.as_int (r : RPCResult) : Except PyExc Int := int_of r.value

/-- `RPCResult.as_float`. -/
def RPCResult.as_float (r : RPCResult) : Except PyExc Rat := float_of r.value

/-- `RPCResult.as_str` — `str()` never raises on a modelled value. -/
def RPCResult.as_str (r : RPCResult) : String := pyStr r.value

/-- `RPCResult.as_bool` — `bool()` never raises on a modelled value. -/
def RPCResult.as_bool (r : RPCResult) : Bool := truthy r.value

/-- `RPCResult.as_list`. -/
def RPCResult.as_list (r : RPCResult) : Except PyExc (List Value) := list_of r.value

/-- `RPCResult.as_dict`. -/
def RPCResult.as_dict (r : RPCResult) : Except PyExc (List (String × Value)) := dict_of r.value

/-- A bound callable modelling `add = lambda a, b: a + b` from the demo
scripts: two positional ints, or keywords `a` and `b`; anything else is a
`TypeError` (argument mismatch). -/
def exAdd : PyFunc := fun a =>
  match a with
  | PyArgs.pos [Value.vint x, Value.vint y] => Except.ok (Value.vint (x + y))
  | PyArgs.kw [("a", Value.vint x), ("b", Value.vint y)] => Except.ok (Value.vint (x + y))
  | PyArgs.kw [("b", Value.vint y), ("a", Value.vint x)] => Except.ok (Value.vint (x + y))
  | _ => Except.error ⟨"add() argument mismatch"⟩

/-- A bound callable that always raises. -/
def exBoom : PyFunc := fun _ => Except.error ⟨"boom"⟩

/-- A small dispatch table for concrete runs. -/
def exTable : Table := [("add", exAdd), ("boom", exBoom)]

/-- The `method` slot of a request envelope. -/
theorem dictGet_requestFor_method (name : String) (p : Value) :
    dictGet (requestFor name p) "method" = some (Value.vstr name) := by
  simp [requestFor, dictGet]

/-- The `params` slot of a request envelope. -/
theorem dictGet_requestFor_params (name : String) (p : Value) :
    dictGet (requestFor name p) "params" = some p := by
  simp [requestFor, dictGet]

/-- `_process_request` on a request whose method is bound: the response
is the envelope of the invocation outcome. -/
theorem process_request_resolved (functions : Table) (name : String) (f : PyFunc)
    (p : Value) (hb : lookupFn functions name = some f) :
    process_request functions (requestFor name p) = resultEnvelope (invoke f p) := by
  simp only [process_request, dictGet_requestFor_method, dictGet_requestFor_params,
    lookupMethod, hb, Option.getD_some]
  cases hi : invoke f p <;> simp [resultEnvelope]

/-- `_process_request` on a request whose method is unbound: the
not-found failure envelope. -/
theorem process_request_unbound (functions : Table) (name : String) (p : Value)
    (h : lookupFn functions name = none) :
    process_request functions (requestFor name p) =
      [("error", Value.vstr (methodNotFoundMsg (some (Value.vstr name))))] := by
  simp only [process_request, dictGet_requestFor_method, dictGet_requestFor_params,
    lookupMethod, h, Option.getD_some]

/-- While `running` is observed true, one received message produces
exactly one response and the loop continues with the remaining events:
the connection is not terminated by serving a request. -/
theorem handlerLoop_cons_msg (functions : Table) (flags : List Bool)
    (events : List ReadEvent) (d : Except PyExc Env) :
    handlerLoop functions (true :: flags) (ReadEvent.msg d :: events) =
      (handleOne functions d :: (handlerLoop functions flags events).1,
       (handlerLoop functions flags events).2) := rfl

/-- C2: every response envelope the server produces — from
`_process_request` (success, method-not-found, application failure) or
from the handler's decode-failure path — contains the key `result` or the
key `error`, never both and never neither. -/
theorem c2_result_xor_error (functions : Table) (d : Except PyExc Env) :
    hasKey (handleOne functions d) "result" ≠ hasKey (handleOne functions d) "error" := by
  cases d with
  | error e => simp [handleOne, hasKey, dictGet]
  | ok request =>
    simp only [handleOne, process_request]
    split
    · simp [hasKey, dictGet]
    · split <;> simp [hasKey, dictGet]

/-- C4: with both positional and keyword arguments the client sends a
params value equal to the ordered positional arguments with the keyword
mapping appended as one trailing element; with only keyword arguments it
sends the mapping itself; with only positional arguments (or none) it
sends the ordered sequence alone. -/
theorem c4_params_shape (m : String) (args : List Value) (kwargs : List (String × Value)) :
    (args ≠ [] → kwargs ≠ [] →
      dictGet (build_request m args kwargs) "params" =
        some (Value.vlist (args ++ [Value.vmap kwargs]))) ∧
    (kwargs ≠ [] → args = [] →
      dictGet (build_request m args kwargs) "params" = some (Value.vmap kwargs)) ∧
    (kwargs = [] →
      dictGet (build_request m args kwargs) "params" = some (Value.vlist args)) := by
  refine ⟨?_, ?_, ?_⟩
  · intro ha hk
    cases args with
    | nil => exact absurd rfl ha
    | cons a as =>
      cases kwargs with
      | nil => exact absurd rfl hk
      | cons k ks => simp [build_request, build_params, dictGet]
  · intro hk ha
    subst ha
    cases kwargs with
    | nil => exact absurd rfl hk
    | cons k ks => simp [build_request, build_params, dictGet]
  · intro hk
    subst hk
    cases args with
    | nil => simp [build_request, build_params, dictGet]
    | cons a as => simp [build_request, build_params, dictGet]

/-- Witness for C4 at concrete argument lists: mixed, keyword-only and
positional-only calls. -/
theorem c4_params_shape_witness :
    dictGet (build_request "f" [Value.vint 1] [("k", Value.vint 2)]) "params" =
      some (Value.vlist [Value.vint 1, Value.vmap [("k", Value.vint 2)]]) ∧
    dictGet (build_request "f" [] [("k", Value.vint 2)]) "params" =
      some (Value.vmap [("k", Value.vint 2)]) ∧
    dictGet (build_request "f" [Value.vint 1] []) "params" =
      some (Value.vlist [Value.vint 1]) :=
  ⟨(c4_params_shape "f" [Value.vint 1] [("k", Value.vint 2)]).1
      (by simp) (by simp),
   (c4_params_shape "f" [] [("k", Value.vint 2)]).2.1 (by simp) rfl,
   (c4_params_shape "f" [Value.vint 1] []).2.2 rfl⟩

/-- C5: the server invokes the resolved callable positionally in order
when params is an ordered sequence, with keyword bindings when params is
a keyed mapping, and with the single value as one positional argument
when params is a scalar; `_process_request` wraps the invocation outcome
into the usual envelope. -/
theorem c5_invoke_shapes (functions : Table) (name : String) (f : PyFunc) (p : Value)
    (hb : lookupFn functions name = some f) :
    process_request functions (requestFor name p) = resultEnvelope (invoke f p) ∧
    (∀ l, p = Value.vlist l → invoke f p = f (PyArgs.pos l)) ∧
    (∀ kw, p = Value.vmap kw → invoke f p = f (PyArgs.kw kw)) ∧
    (isScalar p = true → invoke f p = f (PyArgs.pos [p])) := by
  refine ⟨process_request_resolved functions name f p hb, ?_, ?_, ?_⟩
  · intro l hl; subst hl; rfl
  · intro kw hkw; subst hkw; rfl
  · intro hs
    cases p with
    | vlist xs => simp [isScalar] at hs
    | vmap kvs => simp [isScalar] at hs
    | vnil => rfl
    | vbool b => rfl
    | vint n => rfl
    | vstr s => rfl

/-- Witness for C5: a concrete table, a sequence-shaped params value and
a scalar params value. -/
theorem c5_invoke_shapes_witness :
    process_request exTable (requestFor "add" (Value.vlist [Value.vint 2, Value.vint 3])) =
      resultEnvelope (invoke exAdd (Value.vlist [Value.vint 2, Value.vint 3])) ∧
    invoke exAdd (Value.vlist [Value.vint 2, Value.vint 3]) =
      exAdd (PyArgs.pos [Value.vint 2, Value.vint 3]) ∧
    invoke exAdd (Value.vint 7) = exAdd (PyArgs.pos [Value.vint 7]) :=
  ⟨(c5_invoke_shapes exTable "add" exAdd (Value.vlist [Value.vint 2, Value.vint 3]) rfl).1,
   (c5_invoke_shapes exTable "add" exAdd (Value.vlist [Value.vint 2, Value.vint 3]) rfl).2.1
      [Value.vint 2, Value.vint 3] rfl,
   (c5_invoke_shapes exTable "add" exAdd (Value.vint 7) rfl).2.2.2 rfl⟩

/-- C8: `Client.close` is idempotent and total — a second close is a
no-op that touches no socket, closing an already-closed client changes
nothing, and the state after two closes equals the state after one. -/
theorem c8_close_idempotent (c : ClientState) :
    Client.close (Client.close c).1 = ((Client.close c).1, false) ∧
    Client.close ⟨none⟩ = (⟨none⟩, false) := by
  constructor
  · cases c with
    | mk s => cases s <;> simp [Client.close]
  · simp [Client.close]

/-- C10: the client raises whenever the decoded response carries the key
`error`, even if `result` is also present; with no `error` key it returns
a wrapper holding the value of `result`, which is `None` when that key is
missing too. -/
theorem c10_error_precedence (response : Env) :
    (∀ ev, dictGet response "error" = some ev →
      handle_response response =
        Except.error ⟨remote_error_message ev (dictGet response "traceback")⟩) ∧
    (dictGet response "error" = none →
      handle_response response =
        Except.ok ⟨(dictGet response "result").getD Value.vnil⟩) ∧
    (dictGet response "error" = none → dictGet response "result" = none →
      handle_response response = Except.ok ⟨Value.vnil⟩) := by
  refine ⟨?_, ?_, ?_⟩
  · intro ev h; simp [handle_response, h]
  · intro h; simp [handle_response, h]
  · intro h h2; simp [handle_response, h, h2]

/-- Witness for C10: a response carrying both keys raises with the error
text; a response with neither key yields a `None`-valued wrapper. -/
theorem c10_error_precedence_witness :
    handle_response [("error", Value.vstr "boom"), ("result", Value.vint 7)] =
      Except.error ⟨"Call failed: Remote call failed: boom"⟩ ∧
    handle_response [("x", Value.vint 1)] = Except.ok ⟨Value.vnil⟩ := by
  constructor
  · exact ((c10_error_precedence [("error", Value.vstr "boom"), ("result", Value.vint 7)]).1
      (Value.vstr "boom") rfl).trans (by rfl)
  · exact (c10_error_precedence [("x", Value.vint 1)]).2.2 rfl rfl

/-- C1: for every bound method and positional argument list on which the
method succeeds, the round trip — client builds the request envelope,
server processes it with `_process_request`, client extracts the value
from the success response — returns a value equal to the local result. -/
theorem c1_call_roundtrip (functions : Table) (name : String) (f : PyFunc)
    (args : List Value) (v : Value)
    (hb : lookupFn functions name = some f)
    (hs : f (PyArgs.pos args) = Except.ok v) :
    Except.map RPCResult.get
      (handle_response (process_request functions (build_request name args []))) =
      Except.ok v := by
  have hreq : build_request name args [] = requestFor name (Value.vlist args) := by
    simp [build_request, requestFor, build_params]
  have hi : invoke f (Value.vlist args) = Except.ok v := hs
  rw [hreq, process_request_resolved functions name f (Value.vlist args) hb, hi]
  simp [resultEnvelope, handle_response, dictGet, RPCResult.get, Except.map]

/-- Witness for C1: `add(2, 3)` through the transport equals the local
sum. -/
theorem c1_call_roundtrip_witness :
    Except.map RPCResult.get
      (handle_response (process_request exTable
        (build_request "add" [Value.vint 2, Value.vint 3] []))) =
      Except.ok (Value.vint 5) :=
  c1_call_roundtrip exTable "add" exAdd [Value.vint 2, Value.vint 3] (Value.vint 5) rfl rfl

/-- C6: a request naming a method absent from the dispatch table yields a
failure envelope whose error text contains the requested name, carries no
result, and the handler neither raises nor closes the connection (the
loop serves the remaining events unchanged). -/
theorem c6_method_not_found (functions : Table) (name : String) (p : Value)
    (flags : List Bool) (events : List ReadEvent)
    (h : lookupFn functions name = none) :
    (∃ pre post, dictGet (process_request functions (requestFor name p)) "error" =
        some (Value.vstr (pre ++ name ++ post))) ∧
    hasKey (process_request functions (requestFor name p)) "result" = false ∧
    handlerLoop functions (true :: flags)
        (ReadEvent.msg (Except.ok (requestFor name p)) :: events) =
      (process_request functions (requestFor name p) ::
        (handlerLoop functions flags events).1,
       (handlerLoop functions flags events).2) := by
  have hp := process_request_unbound functions name p h
  refine ⟨⟨"Method " ++ squote, squote ++ " not found", ?_⟩, ?_, ?_⟩
  · rw [hp]
    simp [dictGet, methodNotFoundMsg, pyStrOpt, pyStr, String.append_assoc]
  · rw [hp]; simp [hasKey, dictGet]
  · exact handlerLoop_cons_msg functions flags events (Except.ok (requestFor name p))

/-- Witness for C6: calling unregistered `"missing"` on an empty table. -/
theorem c6_method_not_found_witness :
    (∃ pre post, dictGet (process_request [] (requestFor "missing" (Value.vlist []))) "error" =
        some (Value.vstr (pre ++ "missing" ++ post))) ∧
    hasKey (process_request [] (requestFor "missing" (Value.vlist []))) "result" = false ∧
    handlerLoop [] [true] [ReadEvent.msg (Except.ok (requestFor "missing" (Value.vlist [])))] =
      (process_request [] (requestFor "missing" (Value.vlist [])) ::
        (handlerLoop [] [] []).1,
       (handlerLoop [] [] []).2) :=
  c6_method_not_found [] "missing" (Value.vlist []) [] [] rfl

/-- C7: when the bound callable raises, `_process_request` returns (does
not raise) a failure envelope whose `error` field is the original
exception message and whose `traceback` field carries a diagnostic
trace; the handler keeps serving the remaining events, so the exception
never escapes and the connection is not terminated. -/
theorem c7_application_failure (functions : Table) (name : String) (f : PyFunc)
    (p : Value) (e : PyExc) (flags : List Bool) (events : List ReadEvent)
    (hb : lookupFn functions name = some f)
    (hr : invoke f p = Except.error e) :
    process_request functions (requestFor name p) =
      [("error", Value.vstr e.msg), ("traceback", Value.vstr (format_exc e))] ∧
    hasKey (process_request functions (requestFor name p)) "traceback" = true ∧
    handlerLoop functions (true :: flags)
        (ReadEvent.msg (Except.ok (requestFor name p)) :: events) =
      (process_request functions (requestFor name p) ::
        (handlerLoop functions flags events).1,
       (handlerLoop functions flags events).2) := by
  have h1 : process_request functions (requestFor name p) = resultEnvelope (invoke f p) :=
    process_request_resolved functions name f p hb
  rw [hr] at h1
  refine ⟨h1, ?_, ?_⟩
  · rw [h1]; simp [resultEnvelope, hasKey, dictGet]
  · exact handlerLoop_cons_msg functions flags events (Except.ok (requestFor name p))

/-- Witness for C7: the always-raising bound callable `boom`. -/
theorem c7_application_failure_witness :
    process_request exTable (requestFor "boom" (Value.vlist [])) =
      [("error", Value.vstr "boom"),
       ("traceback", Value.vstr (format_exc ⟨"boom"⟩))] ∧
    hasKey (process_request exTable (requestFor "boom" (Value.vlist []))) "traceback" = true ∧
    handlerLoop exTable [true] [ReadEvent.msg (Except.ok (requestFor "boom" (Value.vlist [])))] =
      (process_request exTable (requestFor "boom" (Value.vlist [])) ::
        (handlerLoop exTable [] []).1,
       (handlerLoop exTable [] []).2) :=
  c7_application_failure exTable "boom" exBoom (Value.vlist []) ⟨"boom"⟩ [] [] rfl rfl

/-- The request used in the concrete C3 run. -/
def exC3Req : Env := requestFor "add" (Value.vlist [Value.vint 2, Value.vint 3])

/-- A scripted connection for C3: two incoming requests, then the peer
closes. The flag sequence `[true, false, false]` records a `stop()` call
landing between the first and second loop-condition checks. -/
def exC3Events : List ReadEvent :=
  [ReadEvent.msg (Except.ok exC3Req), ReadEvent.msg (Except.ok exC3Req), ReadEvent.closed]

/-- C3 counterexample: after `stop()` clears the shared `running` flag,
an already-open handler does NOT continue to serve requests until its
next empty read — it exits at its next loop-condition check. In the run
below the claim predicts both requests served and a `peerClosed` exit;
the code serves only the first request and exits with `stopped`. -/
theorem c3_counterexample :
    handlerLoop exTable [true, false, false] exC3Events =
      ([[("result", Value.vint 5)]], ExitReason.stopped) ∧
    handlerLoop exTable [true, false, false] exC3Events ≠
      ([[("result", Value.vint 5)], [("result", Value.vint 5)]], ExitReason.peerClosed) := by
  have h1 : handlerLoop exTable [true, false, false] exC3Events =
      ([[("result", Value.vint 5)]], ExitReason.stopped) := rfl
  refine ⟨h1, ?_⟩
  rw [h1]
  intro h
  exact ExitReason.noConfusion (congrArg Prod.snd h)

/-- C3 (amended): `stop()` clears `running` and closes only the listening
socket, leaving every handler-owned connection socket untouched; but
because each handler re-checks the shared `running` flag before every
read, a handler that observes the cleared flag exits its loop at once
(serving nothing further) with exit reason `stopped`, rather than
draining until its next empty read. -/
theorem c3_stop_semantics (s : ServerState) (functions : Table)
    (flags : List Bool) (events : List ReadEvent) :
    (Server.stop s).openHandlerSockets = s.openHandlerSockets ∧
    (Server.stop s).running = false ∧
    (Server.stop s).serverSocketOpen = false ∧
    handlerLoop functions (false :: flags) events = ([], ExitReason.stopped) :=
  ⟨rfl, rfl, rfl, rfl⟩

/-- C9: the result-wrapper conversion methods coerce the stored value to
the requested shape when possible and raise when the value cannot be
coerced to that shape (a sequence or mapping requested from a
non-iterable scalar, a number from a non-numeric value), while `get`
returns the stored value unchanged; `as_str` and `as_bool` are total. -/
theorem c9_conversions :
    (∀ v, (RPCResult.mk v).get = v) ∧
    (∀ n, (RPCResult.mk (Value.vint n)).as_int = Except.ok n) ∧
    (∀ b, (RPCResult.mk (Value.vbool b)).as_int = Except.ok (if b then 1 else 0)) ∧
    ((RPCResult.mk (Value.vstr "12")).as_int = Except.ok 12) ∧
    (∀ xs, ∃ e, (RPCResult.mk (Value.vlist xs)).as_int = Except.error e) ∧
    (∀ kvs, ∃ e, (RPCResult.mk (Value.vmap kvs)).as_int = Except.error e) ∧
    (∃ e, (RPCResult.mk Value.vnil).as_int = Except.error e) ∧
    (∀ n, (RPCResult.mk (Value.vint n)).as_float = Except.ok (n : Rat)) ∧
    (∀ xs, ∃ e, (RPCResult.mk (Value.vlist xs)).as_float = Except.error e) ∧
    (∀ xs, (RPCResult.mk (Value.vlist xs)).as_list = Except.ok xs) ∧
    (∀ kvs, (RPCResult.mk (Value.vmap kvs)).as_list =
      Except.ok (kvs.map fun p => Value.vstr p.1)) ∧
    (∀ n, ∃ e, (RPCResult.mk (Value.vint n)).as_list = Except.error e) ∧
    (∀ b, ∃ e, (RPCResult.mk (Value.vbool b)).as_list = Except.error e) ∧
    (∃ e, (RPCResult.mk Value.vnil).as_list = Except.error e) ∧
    (∀ kvs, (RPCResult.mk (Value.vmap kvs)).as_dict = Except.ok kvs) ∧
    (∀ n, ∃ e, (RPCResult.mk (Value.vint n)).as_dict = Except.error e) ∧
    (∀ b, ∃ e, (RPCResult.mk (Value.vbool b)).as_dict = Except.error e) ∧
    (∃ e, (RPCResult.mk Value.vnil).as_dict = Except.error e) ∧
    (∀ v, (RPCResult.mk v).as_str = pyStr v) ∧
    (∀ v, (RPCResult.mk v).as_bool = truthy v) := by
  refine ⟨fun v => rfl, fun n => rfl, fun b => rfl, ?_, fun xs => ⟨_, rfl⟩,
    fun kvs => ⟨_, rfl⟩, ⟨_, rfl⟩, fun n => rfl, fun xs => ⟨_, rfl⟩, fun xs => rfl,
    fun kvs => rfl, fun n => ⟨_, rfl⟩, fun b => ⟨_, rfl⟩, ⟨_, rfl⟩, fun kvs => rfl,
    fun n => ⟨_, rfl⟩, fun b => ⟨_, rfl⟩, ⟨_, rfl⟩, fun v => rfl, fun v => rfl⟩
  rfl
